import Mathlib

/-!
Verification development for the ComfyUI client process
(`src/client/src/lib.rs`).

The process is a single-threaded Kinode event loop.  Every handler is
embedded here as a pure function from the incoming message and the
process `State` to a triple `(Outcome, State, List Effect)`:

* `Outcome` is `ok` (the Rust `Ok(())`), `err e` (an `anyhow` error,
  with `HErr.notAMatch` playing the role of `NotAMatchError` used for
  decode-and-fallback routing), or `panic` (a Rust panic, used for the
  unguarded `routers[0]` index);
* the returned `State` is the value of the `&mut State` after the call;
* `Effect` records the externally visible side effects in order:
  outbound requests/responses, scheduled timers, VFS file writes and
  `set_state` persistence calls.

Machine integers are modelled as `Nat`; the only arithmetic the code
performs is `next_image_number += 1` on a `u32`, modelled with an
explicit `% 4294967296`.  Serde decoding of the untyped byte envelope
is modelled by a `Body` sum type: the three decodable wire types have
pairwise disjoint serde tags, so one body decodes as at most one of
them, and `Body.other` stands for bytes matching none.
-/

namespace ComfyClient

/-- Kinode process identifier (`kinode_process_lib::ProcessId`):
`process:package:publisher`. -/
structure ProcessId where
  process_name : String
  package_name : String
  publisher_node : String
deriving DecidableEq

/-- Kinode address (`kinode_process_lib::Address`): a node name plus a
process id. -/
structure Address where
  node : String
  process : ProcessId
deriving DecidableEq

/-- String form of a `ProcessId`, as produced by its `Display` impl. -/
def processIdToString (p : ProcessId) : String :=
  p.process_name ++ ":" ++ p.package_name ++ ":" ++ p.publisher_node

/-- String form of an `Address` (`node@process:package:publisher`). -/
def addrToString (a : Address) : String :=
  a.node ++ "@" ++ processIdToString a.process

/-- A vote on a proposal (`Vote`). -/
structure Vote where
  proposal_hash : Nat
  is_yea : Bool
deriving DecidableEq

/-- A signed vote on a proposal (`SignedVote`). -/
structure SignedVote where
  vote : Vote
  signature : Nat
deriving DecidableEq

/-- Possible proposals (`Proposal`). -/
inductive Proposal
  | changeRootNode (node : String)
  | changeQueueResponseTimeoutSeconds (s : Nat)
  | changeMaxOutstandingPayments (n : Nat)
  | changePaymentPeriodHours (h : Nat)
  | kick (node : String)
deriving DecidableEq

/-- A proposal together with its votes (`ProposalInProgress`); the Rust
`HashMap<String, SignedVote>` is modelled as an association list. -/
structure ProposalInProgress where
  proposal : Proposal
  votes : List (String × SignedVote)
deriving DecidableEq

/-- Mirrored on-chain DAO state (`OnChainDaoState`).  `AlloyAddress`
(a 160-bit account address) is modelled as `Nat`; the Rust `HashMap`s
are modelled as association lists. -/
structure OnChainDaoState where
  routers : List String
  members : List (String × Nat)
  proposals : List (Nat × ProposalInProgress)
  queue_response_timeout_seconds : Nat
  serve_timeout_seconds : Nat
  max_outstanding_payments : Nat
  payment_period_hours : Nat
deriving DecidableEq

/-- Default `OnChainDaoState`: empty routers/members/proposals, zeroed
parameters (`impl Default for OnChainDaoState`). -/
def OnChainDaoState.default : OnChainDaoState :=
  ⟨[], [], [], 0, 0, 0, 0⟩

/-- The in-flight job tracked by the client (`CurrentJob`). -/
structure CurrentJob where
  job_id : Nat
  next_image_number : Nat
deriving DecidableEq

/-- The single persisted process state record (`State`). -/
structure State where
  current_job : Option CurrentJob
  router_process : Option ProcessId
  rollup_sequencer : Option Address
  on_chain_state : OnChainDaoState
deriving DecidableEq

/-- Default `State` (`impl Default for State`). -/
def State.default : State :=
  ⟨none, none, none, OnChainDaoState.default⟩

/-- The `u32` modulus for `next_image_number += 1`. -/
def u32Mod : Nat := 4294967296

/-- Rust `Result<T, E>` payloads carried on the wire. -/
inductive RustResult (α β : Type)
  | ok (v : α)
  | err (e : β)
deriving DecidableEq

/-- Job submission parameters (`JobParameters`). -/
structure JobParameters where
  workflow : String
  parameters : String
deriving DecidableEq

/-- Public request wire shape (`PublicRequest`). -/
inductive PublicRequest
  | runJob (p : JobParameters)
  | jobUpdate (job_id : Nat) (is_final : Bool) (signature : RustResult Nat String)
deriving DecidableEq

/-- Router responses to a job submission (`RunResponse`). -/
inductive RunResponse
  | jobQueued (job_id : Nat)
  | paymentRequired
  | error (msg : String)
deriving DecidableEq

/-- Public response wire shape (`PublicResponse`). -/
inductive PublicResponse
  | runJob (r : RunResponse)
  | jobUpdate
deriving DecidableEq

/-- Admin request wire shape (`AdminRequest`). -/
inductive AdminRequest
  | setRouterProcess (process_id : String)
  | setRollupSequencer (address : String)
  | getRollupState
deriving DecidableEq

/-- Admin response wire shape (`AdminResponse`). -/
inductive AdminResponse
  | setRouterProcess (err : Option String)
  | setRollupSequencer (err : Option String)
  | getRollupState (err : Option String)
deriving DecidableEq

/-- Sequencer read requests (`ReadRequest`). -/
inductive ReadRequest
  | all
  | dao
  | routers
  | members
  | proposals
  | parameters
deriving DecidableEq

/-- Sequencer request wire shape (`SequencerRequest`). -/
inductive SequencerRequest
  | read (r : ReadRequest)
deriving DecidableEq

/-- Sequencer read responses (`ReadResponse`). -/
inductive ReadResponse
  | all (dao : OnChainDaoState)
  | dao
  | routers (rs : List String)
  | members (ms : List String)
  | proposals
  | parameters
deriving DecidableEq

/-- Sequencer response wire shape (`SequencerResponse`). -/
inductive SequencerResponse
  | read (r : ReadResponse)
  | write
deriving DecidableEq

/-- The untyped message body.  The serde tags of `AdminRequest`,
`PublicRequest` and `PublicResponse` are pairwise disjoint (distinct
variant names, or the same name with incompatible payload shapes), so
any concrete byte body decodes as at most one of the three; `other`
stands for bytes that decode as none of them. -/
inductive Body
  | adminReq (r : AdminRequest)
  | publicReq (r : PublicRequest)
  | publicResp (r : PublicResponse)
  | other
deriving DecidableEq

/-- A lazy-load blob: either bytes that decode as a `SequencerResponse`
or raw/undecodable bytes (e.g. image data). -/
inductive Blob
  | seqResp (r : SequencerResponse)
  | bytes (bs : List Nat)
deriving DecidableEq

/-- Context bytes attached to a response: either a serialized `u64`
(what the client's own timers carry) or anything else. -/
inductive CtxBytes
  | u64val (n : Nat)
  | other
deriving DecidableEq

/-- An inbound message as seen by `handle_message`: direction, source
address, body, the blob returned by `get_blob()` for this message, and
the optional response context. -/
structure Msg where
  is_request : Bool
  source : Address
  body : Body
  blob : Option Blob
  context : Option CtxBytes
deriving DecidableEq

/-- serde decode of the body as `AdminRequest` (`serde_json::from_slice`). -/
def decodeAdminRequest : Body → Option AdminRequest
  | .adminReq r => some r
  | _ => none

/-- serde decode of the body as `PublicRequest`. -/
def decodePublicRequest : Body → Option PublicRequest
  | .publicReq r => some r
  | _ => none

/-- serde decode of the body as `PublicResponse`. -/
def decodePublicResponse : Body → Option PublicResponse
  | .publicResp r => some r
  | _ => none

/-- The `let Ok(SequencerResponse::Read(ReadResponse::All(..)))` pattern
in `await_chain_state`: decode the blob bytes and require exactly the
read-all shape. -/
def decodeReadAll : Blob → Option OnChainDaoState
  | .seqResp (.read (.all dao)) => some dao
  | _ => none

/-- Decode response context bytes as a `u64`
(`serde_json::from_slice(message.context().unwrap_or_default())`);
a missing context is an empty slice, which fails to decode. -/
def decodeCtxU64 : Option CtxBytes → Option Nat
  | some (.u64val n) => some n
  | _ => none

/-- Handler errors (the distinct `anyhow`/`thiserror` errors the code
produces).  `notAMatch` is `NotAMatchError::NotAMatch`, the internal
routing signal used for decode-and-fallback. -/
inductive HErr
  | notAMatch
  | waitUntilDone
  | noRouterProcess
  | noRollupSequencer
  | noBlob
  | fetchNoSequencer
  | fetchTransport
  | fetchNoBlob
  | fetchWrongResponse
  | adminNotLocal (src : Address)
  | parseFailed
  | noSequencerSet
  | ctxDecodeFailed
  | jobTimedOut (job_id : Nat)
  | unexpectedRequest (src : Address) (body : Body)
deriving DecidableEq

/-- Result of running a handler: normal return, error return, or a
Rust panic. -/
inductive Outcome
  | ok
  | err (e : HErr)
  | panic (msg : String)
deriving DecidableEq

/-- Externally visible side effects, in program order. -/
inductive Effect
  | sendRequest (dest : Address) (body : Body) (expects_response : Option Nat)
  | sendAwait (dest : Address) (timeout_secs : Nat) (req : SequencerRequest)
  | sendResponse (r : AdminResponse)
  | setTimer (duration_ms : Nat) (context : Option CtxBytes)
  | writeFile (path : String) (blob : Blob)
  | saveState
deriving DecidableEq

/-- Environment for one `await_chain_state` call: whether
`send_and_await_response(5)` succeeded (false covers timeouts and send
errors), and what `get_blob()` returns afterwards. -/
structure SyncEnv where
  sendOk : Bool
  blob : Option Blob
deriving DecidableEq

/-- Split a character list at a separator character. -/
def splitOnChar (c : Char) : List Char → List (List Char)
  | [] => [[]]
  | x :: xs =>
    match splitOnChar c xs with
    | [] => if x = c then [[], []] else [[x]]
    | y :: ys => if x = c then [] :: y :: ys else (x :: y) :: ys

/-- Modelled from the library interface: `ProcessId::from_str` in
`kinode_process_lib` parses `process:package:publisher`, requiring
exactly three `:`-separated segments.  The proofs rely only on a
well-formed triple parsing and on a segment-count mismatch failing. -/
def parseProcessId (s : String) : Option ProcessId :=
  match (splitOnChar ':' s.toList).map (fun l => String.mk l) with
  | [pn, pk, pb] => some ⟨pn, pk, pb⟩
  | _ => none

/-- Modelled from the library interface: `Address::from_str` parses
`node@process:package:publisher`. -/
def parseAddress (s : String) : Option Address :=
  match (splitOnChar '@' s.toList).map (fun l => String.mk l) with
  | [n, p] => (parseProcessId p).map (fun pid => ⟨n, pid⟩)
  | _ => none

/-- Embedding of `await_chain_state`: blocking read-all round trip to
`rollup_sequencer` with a 5-second timeout; on success the whole
`on_chain_state` is replaced and the state saved. -/
def await_chain_state (env : SyncEnv) (st : State) :
    Outcome × State × List Effect :=
  match st.rollup_sequencer with
  | none => (.err .fetchNoSequencer, st, [])
  | some seq =>
    let eff0 := [Effect.sendAwait seq 5 (.read .all)]
    if env.sendOk = false then (.err .fetchTransport, st, eff0)
    else
      match env.blob with
      | none => (.err .fetchNoBlob, st, eff0)
      | some b =>
        match decodeReadAll b with
        | some new_dao_state =>
          (.ok, { st with on_chain_state := new_dao_state },
           eff0 ++ [.saveState])
        | none => (.err .fetchWrongResponse, st, eff0)

/-- The tracked-job branch of the `PublicRequest::JobUpdate` arm: the
blob must be present; the artifact path uses the message's `job_id`
and either the session's `next_image_number` or the literal `final`;
the counter is incremented (u32 wrap), a final update clears
`current_job`, state is saved, then the file is written. -/
def jobUpdateTracked (images_dir : String) (job_id : Nat) (is_final : Bool)
    (blob : Option Blob) (cj : CurrentJob) (st : State) :
    Outcome × State × List Effect :=
  match blob with
  | none => (.err .noBlob, st, [])
  | some b =>
    let file := images_dir ++ "/" ++ toString job_id ++ "-"
      ++ (if is_final then "final" else toString cj.next_image_number)
      ++ ".jpg"
    let cj' : CurrentJob := ⟨cj.job_id, (cj.next_image_number + 1) % u32Mod⟩
    let st' := if is_final then { st with current_job := none }
               else { st with current_job := some cj' }
    (.ok, st', [.saveState, .writeFile file b])

/-- Embedding of `handle_public_request`.  The source's self-recursive
call (a `JobUpdate` arriving with no tracked job seeds a
`CurrentJob { job_id, next_image_number: 0 }`, saves, and re-enters the
handler on the same message) is unrolled: the retry re-decodes the same
body and finds `current_job` set, so it deterministically reaches the
tracked branch. -/
def handle_public_request (_our : Address) (msg : Msg) (images_dir : String)
    (st : State) : Outcome × State × List Effect :=
  match decodePublicRequest msg.body with
  | some (.runJob _job_parameters) =>
    if st.current_job.isSome then (.err .waitUntilDone, st, [])
    else
      match st.router_process with
      | none => (.err .noRouterProcess, st, [])
      | some rp =>
        match st.rollup_sequencer with
        | none => (.err .noRollupSequencer, st, [])
        | some _ =>
          match st.on_chain_state.routers with
          | [] => (.panic "index out of bounds: routers[0] on empty routers", st, [])
          | r0 :: _ =>
            (.ok, st, [.sendRequest ⟨r0, rp⟩ msg.body (some 20)])
  | some (.jobUpdate job_id is_final _signature) =>
    match st.current_job with
    | none =>
      let st1 := { st with current_job := some ⟨job_id, 0⟩ }
      match jobUpdateTracked images_dir job_id is_final msg.blob
          ⟨job_id, 0⟩ st1 with
      | (o, st2, eff) => (o, st2, .saveState :: eff)
    | some cj => jobUpdateTracked images_dir job_id is_final msg.blob cj st
  | none => (.err .notAMatch, st, [])

/-- Embedding of `handle_public_response`: a `JobQueued` confirmation
schedules a 10-second (10 * 1000 ms) timer carrying the serialized job
id as context, records the job with counter 0, and saves; the other
response shapes are logged only. -/
def handle_public_response (msg : Msg) (st : State) :
    Outcome × State × List Effect :=
  match decodePublicResponse msg.body with
  | some (.runJob r) =>
    match r with
    | .jobQueued job_id =>
      (.ok, { st with current_job := some ⟨job_id, 0⟩ },
       [.setTimer (10 * 1000) (some (.u64val job_id)), .saveState])
    | .paymentRequired => (.ok, st, [])
    | .error _ => (.ok, st, [])
  | some .jobUpdate => (.ok, st, [])
  | none => (.err .notAMatch, st, [])

/-- Embedding of `handle_admin_request`: a non-local sender is rejected
(after confirming the body is admin-shaped, else `notAMatch`); the
three local operations parse/store endpoints, trigger chain sync where
documented, and respond on their success paths. -/
def handle_admin_request (our : Address) (msg : Msg) (env : SyncEnv)
    (st : State) : Outcome × State × List Effect :=
  if msg.source.node ≠ our.node then
    match decodeAdminRequest msg.body with
    | none => (.err .notAMatch, st, [])
    | some _ => (.err (.adminNotLocal msg.source), st, [])
  else
    match decodeAdminRequest msg.body with
    | some (.setRouterProcess process_id) =>
      match parseProcessId process_id with
      | none => (.err .parseFailed, st, [])
      | some p =>
        (.ok, { st with router_process := some p },
         [.saveState, .sendResponse (.setRouterProcess none)])
    | some (.setRollupSequencer address) =>
      match parseAddress address with
      | none => (.err .parseFailed, st, [])
      | some a =>
        let st1 := { st with rollup_sequencer := some a }
        match await_chain_state env st1 with
        | (.ok, st2, eff) =>
          (.ok, st2,
           .saveState :: (eff ++ [.sendResponse (.setRollupSequencer none)]))
        | (o, st2, eff) => (o, st2, .saveState :: eff)
    | some .getRollupState =>
      match st.rollup_sequencer with
      | none =>
        (.err .noSequencerSet, st,
         [.sendResponse (.getRollupState (some "no rollup sequencer set"))])
      | some _ =>
        match await_chain_state env st with
        | (.ok, st2, eff) =>
          (.ok, st2, eff ++ [.sendResponse (.getRollupState none)])
        | (o, st2, eff) => (o, st2, eff)
    | none => (.err .notAMatch, st, [])

/-- A `JobUpdate` request message for job `j` with finality flag `fin`
and an attached blob, as delivered by the transport. -/
def mkUpdateMsg (src : Address) (j : Nat) (fin : Bool) (b : Blob) : Msg :=
  ⟨true, src, .publicReq (.jobUpdate j fin (.ok 0)), some b, none⟩

/-- Run `handle_public_request` over a list of `JobUpdate` messages for
job `j` (finality flag and blob per update), threading the state and
collecting all effects in order. -/
def processUpdates (our src : Address) (images_dir : String) (j : Nat)
    (us : List (Bool × Blob)) (st : State) : State × List Effect :=
  match us with
  | [] => (st, [])
  | (fin, b) :: rest =>
    match handle_public_request our (mkUpdateMsg src j fin b) images_dir st with
    | (_, st1, eff1) =>
      match processUpdates our src images_dir j rest st1 with
      | (st2, eff2) => (st2, eff1 ++ eff2)

/-- The artifact paths written by a list of effects, in order. -/
def writtenPaths : List Effect → List String
  | [] => []
  | .writeFile p _ :: rest => p :: writtenPaths rest
  | _ :: rest => writtenPaths rest

/-- The artifact path `{images_dir}/{job_id}-{tag}.jpg`. -/
def imgPath (images_dir : String) (j : Nat) (tag : String) : String :=
  images_dir ++ "/" ++ toString j ++ "-" ++ tag ++ ".jpg"

/-- The timer source string `format!("{}@timer:distro:sys", our.node())`. -/
def timerSourceString (our : Address) : String :=
  our.node ++ "@timer:distro:sys"

/-- Embedding of `handle_message`: requests go admin-then-public with
`NotAMatch` fallthrough; responses try the public-response decoder and
otherwise, when the sender is the local timer, run the timeout logic. -/
def handle_message (our : Address) (msg : Msg) (images_dir : String)
    (env : SyncEnv) (st : State) : Outcome × State × List Effect :=
  if msg.is_request then
    match handle_admin_request our msg env st with
    | (.err .notAMatch, st1, eff1) =>
      match handle_public_request our msg images_dir st1 with
      | (.err .notAMatch, st2, eff2) =>
        (.err (.unexpectedRequest msg.source msg.body), st2, eff1 ++ eff2)
      | (o, st2, eff2) => (o, st2, eff1 ++ eff2)
    | r => r
  else
    match handle_public_response msg st with
    | (.err .notAMatch, st1, eff1) =>
      if addrToString msg.source = timerSourceString our then
        match st1.current_job with
        | none => (.ok, st1, eff1)
        | some current_job =>
          match decodeCtxU64 msg.context with
          | none => (.err .ctxDecodeFailed, st1, eff1)
          | some timer_job_id =>
            if current_job.job_id = timer_job_id then
              (.err (.jobTimedOut timer_job_id),
               { st1 with current_job := none }, eff1 ++ [.saveState])
            else (.ok, st1, eff1)
      else (.ok, st1, eff1)
    | r => r

/-! ### Helper lemmas -/

@[simp] theorem writtenPaths_nil : writtenPaths [] = [] := rfl

@[simp] theorem writtenPaths_cons_save (l : List Effect) :
    writtenPaths (.saveState :: l) = writtenPaths l := rfl

@[simp] theorem writtenPaths_cons_write (p : String) (b : Blob)
    (l : List Effect) :
    writtenPaths (.writeFile p b :: l) = p :: writtenPaths l := rfl

theorem writtenPaths_append (l1 l2 : List Effect) :
    writtenPaths (l1 ++ l2) = writtenPaths l1 ++ writtenPaths l2 := by
  induction l1 with
  | nil => rfl
  | cons e rest ih => cases e <;> simp [writtenPaths, ih]

/-- A tracked non-final update: blob present, increments the counter,
writes the artifact under the current counter value. -/
theorem handle_update_tracked_nonfinal (our src : Address) (dir : String)
    (j : Nat) (b : Blob) (cj : CurrentJob) (st : State)
    (h : st.current_job = some cj) :
    handle_public_request our (mkUpdateMsg src j false b) dir st
      = (.ok,
         { st with
           current_job := some ⟨cj.job_id, (cj.next_image_number + 1) % u32Mod⟩ },
         [.saveState,
          .writeFile (imgPath dir j (toString cj.next_image_number)) b]) := by
  simp [handle_public_request, mkUpdateMsg, decodePublicRequest, h,
    jobUpdateTracked, imgPath]

/-- A tracked final update: blob present, clears `current_job`, writes
the `final` artifact. -/
theorem handle_update_tracked_final (our src : Address) (dir : String)
    (j : Nat) (b : Blob) (cj : CurrentJob) (st : State)
    (h : st.current_job = some cj) :
    handle_public_request our (mkUpdateMsg src j true b) dir st
      = (.ok, { st with current_job := none },
         [.saveState, .writeFile (imgPath dir j "final") b]) := by
  simp [handle_public_request, mkUpdateMsg, decodePublicRequest, h,
    jobUpdateTracked, imgPath]

theorem processUpdates_append (our src : Address) (dir : String) (j : Nat)
    (us vs : List (Bool × Blob)) (st : State) :
    processUpdates our src dir j (us ++ vs) st
      = ((processUpdates our src dir j vs
            (processUpdates our src dir j us st).1).1,
         (processUpdates our src dir j us st).2
           ++ (processUpdates our src dir j vs
                 (processUpdates our src dir j us st).1).2) := by
  induction us generalizing st with
  | nil => simp [processUpdates]
  | cons u rest ih =>
    obtain ⟨fin, b⟩ := u
    simp [processUpdates, ih, List.append_assoc]

/-- Running `n` accepted non-final updates from a session at counter
`c` (no u32 wrap) advances the counter to `c + n` and writes the paths
numbered `c, c+1, ..., c+n-1` in order. -/
theorem processUpdates_replicate_nonfinal (our src : Address) (dir : String)
    (j : Nat) (b : Blob) :
    ∀ (n c : Nat) (st : State), st.current_job = some ⟨j, c⟩ →
      c + n < u32Mod →
      (processUpdates our src dir j (List.replicate n (false, b)) st).1
          = { st with current_job := some ⟨j, c + n⟩ }
        ∧ writtenPaths
            (processUpdates our src dir j (List.replicate n (false, b)) st).2
          = (List.range n).map (fun i => imgPath dir j (toString (c + i))) := by
  intro n
  induction n with
  | zero =>
    intro c st h _
    obtain ⟨cj, rp, sq, ch⟩ := st
    simp only [State.mk.injEq] at h ⊢
    simp [processUpdates, h]
  | succ n ih =>
    intro c st h hn
    obtain ⟨cur, rp, sq, ch⟩ := st
    replace h : cur = some ⟨j, c⟩ := h
    subst h
    have hc1 : (c + 1) % u32Mod = c + 1 := Nat.mod_eq_of_lt (by omega)
    have hstep : handle_public_request our (mkUpdateMsg src j false b) dir
          (State.mk (some ⟨j, c⟩) rp sq ch)
        = (.ok, State.mk (some ⟨j, c + 1⟩) rp sq ch,
           [.saveState, .writeFile (imgPath dir j (toString c)) b]) := by
      rw [handle_update_tracked_nonfinal our src dir j b ⟨j, c⟩ _ rfl]
      simp [hc1]
    have ih' := ih (c + 1) (State.mk (some ⟨j, c + 1⟩) rp sq ch) rfl (by omega)
    rw [List.replicate_succ]
    simp only [processUpdates, hstep]
    refine ⟨?_, ?_⟩
    · rw [ih'.1]
      have harith : c + 1 + n = c + (n + 1) := by omega
      rw [harith]
    · rw [writtenPaths_append, ih'.2]
      simp only [writtenPaths_cons_save, writtenPaths_cons_write,
        writtenPaths_nil, List.range_succ_eq_map, List.map_cons,
        List.map_map, List.singleton_append, List.cons.injEq]
      refine ⟨by simp, ?_⟩
      apply List.map_congr_left
      intro i _
      simp only [Function.comp_apply]
      have harith : c + 1 + i = c + (i + 1) := by omega
      rw [harith]

/-! ### Claim theorems -/

/-- C8: a job-queued confirmation response carrying an assigned job id
sets `current_job` to that id with `next_image_number = 0`, persists
state, and schedules a 10-second (10 * 1000 ms) watchdog timer whose
context is the serialized job id. -/
theorem job_queued_confirmation_starts_session
    (src : Address) (blb : Option Blob) (ctx : Option CtxBytes) (j : Nat)
    (st : State) :
    handle_public_response
        ⟨false, src, .publicResp (.runJob (.jobQueued j)), blb, ctx⟩ st
      = (.ok, { st with current_job := some ⟨j, 0⟩ },
         [.setTimer (10 * 1000) (some (.u64val j)), .saveState]) := rfl

/-- C5: a `RunJob` submission fails with the precondition error for a
job already in flight, then a missing router process, then a missing
rollup sequencer, checked in that order; in each case no outbound
request is sent and the state is unchanged. -/
theorem runjob_precondition_errors
    (our src : Address) (p : JobParameters) (blb : Option Blob)
    (ctx : Option CtxBytes) (dir : String) :
    (∀ (cj : CurrentJob) (rp : Option ProcessId) (sq : Option Address)
        (ch : OnChainDaoState),
      handle_public_request our ⟨true, src, .publicReq (.runJob p), blb, ctx⟩
          dir ⟨some cj, rp, sq, ch⟩
        = (.err .waitUntilDone, ⟨some cj, rp, sq, ch⟩, []))
    ∧ (∀ (sq : Option Address) (ch : OnChainDaoState),
      handle_public_request our ⟨true, src, .publicReq (.runJob p), blb, ctx⟩
          dir ⟨none, none, sq, ch⟩
        = (.err .noRouterProcess, ⟨none, none, sq, ch⟩, []))
    ∧ (∀ (rp : ProcessId) (ch : OnChainDaoState),
      handle_public_request our ⟨true, src, .publicReq (.runJob p), blb, ctx⟩
          dir ⟨none, some rp, none, ch⟩
        = (.err .noRollupSequencer, ⟨none, some rp, none, ch⟩, [])) :=
  ⟨fun _ _ _ _ => rfl, fun _ _ => rfl, fun _ _ => rfl⟩

/-- C10: with all three submit preconditions satisfied but an empty
`routers` sequence, the `RunJob` arm panics on the unguarded
`routers[0]` index; such a state is reachable from the default state by
a set-router admin request followed by a set-sequencer admin request
whose triggered chain sync fails (the sequencer endpoint is stored
before the sync runs). -/
theorem runjob_empty_routers_panics :
    (∀ (our src : Address) (p : JobParameters) (blb : Option Blob)
        (ctx : Option CtxBytes) (dir : String) (rp : ProcessId) (sq : Address)
        (mem : List (String × Nat)) (props : List (Nat × ProposalInProgress))
        (q s m ph : Nat),
      handle_public_request our ⟨true, src, .publicReq (.runJob p), blb, ctx⟩
          dir ⟨none, some rp, some sq, ⟨[], mem, props, q, s, m, ph⟩⟩
        = (.panic "index out of bounds: routers[0] on empty routers",
           ⟨none, some rp, some sq, ⟨[], mem, props, q, s, m, ph⟩⟩, []))
    ∧ (let our : Address := ⟨"our.os", ⟨"client", "comfyui", "nick.os"⟩⟩
       let envFail : SyncEnv := ⟨false, none⟩
       let st1 := (handle_message our
         ⟨true, our, .adminReq (.setRouterProcess "router:comfyui:nick.os"),
          none, none⟩ "images" envFail State.default).2.1
       let st2 := (handle_message our
         ⟨true, our,
          .adminReq (.setRollupSequencer "seq.os@sequencer:rollup:nick.os"),
          none, none⟩ "images" envFail st1).2.1
       st2 = ⟨none, some ⟨"router", "comfyui", "nick.os"⟩,
              some ⟨"seq.os", ⟨"sequencer", "rollup", "nick.os"⟩⟩,
              OnChainDaoState.default⟩
       ∧ (handle_public_request our
            ⟨true, our, .publicReq (.runJob ⟨"workflow1", "params1"⟩),
             none, none⟩ "images" st2).1
           = .panic "index out of bounds: routers[0] on empty routers") := by
  refine ⟨?_, ?_⟩
  · intro our src p blb ctx dir rp sq mem props q s m ph
    rfl
  · exact ⟨by decide, by decide⟩

/-- C1 counterexample: the claim says `current_job` becomes `Some` only
via a successful job-queued confirmation response, but the `JobUpdate`
recovery path in `handle_public_request` sets it directly: delivering a
public `JobUpdate` request for job 42 to the default state (no tracked
job, no confirmation ever received) leaves `current_job` set. -/
theorem jobUpdate_recovery_sets_current_job_cex :
    State.default.current_job = none
    ∧ ((handle_public_request ⟨"our.os", ⟨"client", "comfyui", "nick.os"⟩⟩
          ⟨true, ⟨"peer.os", ⟨"router", "comfyui", "nick.os"⟩⟩,
           .publicReq (.jobUpdate 42 false (.ok 0)), some (.bytes [7]), none⟩
          "images" State.default).2.1.current_job = some ⟨42, 1⟩) :=
  ⟨rfl, rfl⟩

/-- C1 amended: handling a `RunJob` submission request never changes
`current_job`; besides the job-queued confirmation, the one other way
`current_job` becomes `Some` is the `JobUpdate` recovery path, which
seeds a session for the incoming job id when no job is tracked (the
session then advances to counter 1, is cleared by a final flag, or
stays at 0 when the blob is missing). -/
theorem current_job_transitions_amended :
    (∀ (our src : Address) (p : JobParameters) (blb : Option Blob)
        (ctx : Option CtxBytes) (dir : String) (st : State),
      (handle_public_request our ⟨true, src, .publicReq (.runJob p), blb, ctx⟩
          dir st).2.1 = st)
    ∧ (∀ (our src : Address) (j : Nat) (fin : Bool)
        (sig : RustResult Nat String) (blb : Option Blob)
        (ctx : Option CtxBytes) (dir : String) (rp : Option ProcessId)
        (sq : Option Address) (ch : OnChainDaoState),
      (handle_public_request our
          ⟨true, src, .publicReq (.jobUpdate j fin sig), blb, ctx⟩ dir
          ⟨none, rp, sq, ch⟩).2.1.current_job
        = match blb with
          | none => some ⟨j, 0⟩
          | some _ => if fin then none else some ⟨j, 1⟩) := by
  constructor
  · intro our src p blb ctx dir st
    obtain ⟨cur, rp, sq, ch⟩ := st
    cases cur <;> cases rp <;> cases sq <;> cases hr : ch.routers <;>
      simp [handle_public_request, decodePublicRequest, hr]
  · intro our src j fin sig blb ctx dir rp sq ch
    cases blb <;> cases fin <;>
      simp [handle_public_request, decodePublicRequest, jobUpdateTracked,
        u32Mod]

/-- C4: an admin-shaped request whose sender node differs from this
process's node is rejected by the dispatcher with the authorization
error (it does not fall through to the public-request handler), with
no state change and no side effect. -/
theorem nonlocal_admin_rejected (our src : Address) (r : AdminRequest)
    (blb : Option Blob) (ctx : Option CtxBytes) (dir : String) (env : SyncEnv)
    (st : State) (h : src.node ≠ our.node) :
    handle_message our ⟨true, src, .adminReq r, blb, ctx⟩ dir env st
      = (.err (.adminNotLocal src), st, []) := by
  simp [handle_message, handle_admin_request, decodeAdminRequest, h]

/-- Witness for C4 at a concrete non-local sender. -/
theorem nonlocal_admin_rejected_witness :
    handle_message ⟨"our.os", ⟨"client", "comfyui", "nick.os"⟩⟩
        ⟨true, ⟨"peer.os", ⟨"router", "comfyui", "nick.os"⟩⟩,
         .adminReq .getRollupState, none, none⟩
        "images" ⟨true, none⟩ State.default
      = (.err (.adminNotLocal ⟨"peer.os", ⟨"router", "comfyui", "nick.os"⟩⟩),
         State.default, []) :=
  nonlocal_admin_rejected _ _ _ _ _ _ _ _ (by decide)

/-- C3: `await_chain_state` fails — unset sequencer, failed round trip,
missing blob, or a blob that is not the read-all shape — returning an
error and leaving the whole state (in particular `on_chain_state`)
exactly as it was; on success it replaces `on_chain_state` wholesale
and persists state. -/
theorem await_chain_state_cases :
    (∀ (env : SyncEnv) (cj : Option CurrentJob) (rp : Option ProcessId)
        (ch : OnChainDaoState),
      await_chain_state env ⟨cj, rp, none, ch⟩
        = (.err .fetchNoSequencer, ⟨cj, rp, none, ch⟩, []))
    ∧ (∀ (blb : Option Blob) (cj : Option CurrentJob) (rp : Option ProcessId)
        (a : Address) (ch : OnChainDaoState),
      await_chain_state ⟨false, blb⟩ ⟨cj, rp, some a, ch⟩
        = (.err .fetchTransport, ⟨cj, rp, some a, ch⟩,
           [.sendAwait a 5 (.read .all)]))
    ∧ (∀ (cj : Option CurrentJob) (rp : Option ProcessId) (a : Address)
        (ch : OnChainDaoState),
      await_chain_state ⟨true, none⟩ ⟨cj, rp, some a, ch⟩
        = (.err .fetchNoBlob, ⟨cj, rp, some a, ch⟩,
           [.sendAwait a 5 (.read .all)]))
    ∧ (∀ (b : Blob) (cj : Option CurrentJob) (rp : Option ProcessId)
        (a : Address) (ch : OnChainDaoState), decodeReadAll b = none →
      await_chain_state ⟨true, some b⟩ ⟨cj, rp, some a, ch⟩
        = (.err .fetchWrongResponse, ⟨cj, rp, some a, ch⟩,
           [.sendAwait a 5 (.read .all)]))
    ∧ (∀ (b : Blob) (dao : OnChainDaoState) (st : State) (a : Address),
        st.rollup_sequencer = some a → decodeReadAll b = some dao →
      await_chain_state ⟨true, some b⟩ st
        = (.ok, { st with on_chain_state := dao },
           [.sendAwait a 5 (.read .all), .saveState])) := by
  refine ⟨fun _ _ _ _ => rfl, fun _ _ _ _ _ => rfl, fun _ _ _ _ => rfl,
    ?_, ?_⟩
  · intro b cj rp a ch hb
    simp [await_chain_state, hb]
  · intro b dao st a ha hb
    simp [await_chain_state, ha, hb]

/-- Witness for C3 at a concrete wrong-shape blob and a concrete
successful read-all response. -/
theorem await_chain_state_cases_witness :
    await_chain_state ⟨true, some (.bytes [0])⟩
        ⟨none, none, some ⟨"seq.os", ⟨"sequencer", "rollup", "nick.os"⟩⟩,
         OnChainDaoState.default⟩
      = (.err .fetchWrongResponse,
         ⟨none, none, some ⟨"seq.os", ⟨"sequencer", "rollup", "nick.os"⟩⟩,
          OnChainDaoState.default⟩,
         [.sendAwait ⟨"seq.os", ⟨"sequencer", "rollup", "nick.os"⟩⟩ 5
            (.read .all)])
    ∧ await_chain_state
        ⟨true, some (.seqResp (.read (.all ⟨["r.os"], [], [], 1, 2, 3, 4⟩)))⟩
        ⟨none, none, some ⟨"seq.os", ⟨"sequencer", "rollup", "nick.os"⟩⟩,
         OnChainDaoState.default⟩
      = (.ok,
         ⟨none, none, some ⟨"seq.os", ⟨"sequencer", "rollup", "nick.os"⟩⟩,
          ⟨["r.os"], [], [], 1, 2, 3, 4⟩⟩,
         [.sendAwait ⟨"seq.os", ⟨"sequencer", "rollup", "nick.os"⟩⟩ 5
            (.read .all), .saveState]) :=
  ⟨await_chain_state_cases.2.2.2.1 _ _ _ _ _ rfl,
   await_chain_state_cases.2.2.2.2 _ _ _ _ rfl rfl⟩

/-- C6: a timer-originated notification is ignored with no error when
no job is tracked; when the correlated job id differs from the tracked
job id nothing happens and no error is raised; only a matching job id
clears `current_job`, persists, and surfaces the timeout error. -/
theorem timer_timeout_matching_only
    (our src : Address) (blb : Option Blob) (dir : String) (env : SyncEnv)
    (hsrc : addrToString src = timerSourceString our) :
    (∀ (rp : Option ProcessId) (sq : Option Address) (ch : OnChainDaoState)
        (ctx : Option CtxBytes),
      handle_message our ⟨false, src, .other, blb, ctx⟩ dir env
          ⟨none, rp, sq, ch⟩
        = (.ok, ⟨none, rp, sq, ch⟩, []))
    ∧ (∀ (cj : CurrentJob) (rp : Option ProcessId) (sq : Option Address)
        (ch : OnChainDaoState) (t : Nat), cj.job_id ≠ t →
      handle_message our ⟨false, src, .other, blb, some (.u64val t)⟩ dir env
          ⟨some cj, rp, sq, ch⟩
        = (.ok, ⟨some cj, rp, sq, ch⟩, []))
    ∧ (∀ (cj : CurrentJob) (rp : Option ProcessId) (sq : Option Address)
        (ch : OnChainDaoState),
      handle_message our ⟨false, src, .other, blb, some (.u64val cj.job_id)⟩
          dir env ⟨some cj, rp, sq, ch⟩
        = (.err (.jobTimedOut cj.job_id), ⟨none, rp, sq, ch⟩,
           [.saveState])) := by
  refine ⟨?_, ?_, ?_⟩
  · intro rp sq ch ctx
    simp [handle_message, handle_public_response, decodePublicResponse, hsrc]
  · intro cj rp sq ch t ht
    simp [handle_message, handle_public_response, decodePublicResponse, hsrc,
      decodeCtxU64, ht]
  · intro cj rp sq ch
    simp [handle_message, handle_public_response, decodePublicResponse, hsrc,
      decodeCtxU64]

/-- Witness for C6 at a concrete timer source, in all three cases. -/
theorem timer_timeout_matching_only_witness :
    (handle_message ⟨"our.os", ⟨"client", "comfyui", "nick.os"⟩⟩
        ⟨false, ⟨"our.os", ⟨"timer", "distro", "sys"⟩⟩, .other, none, none⟩
        "images" ⟨true, none⟩ ⟨none, none, none, OnChainDaoState.default⟩
      = (.ok, ⟨none, none, none, OnChainDaoState.default⟩, []))
    ∧ (handle_message ⟨"our.os", ⟨"client", "comfyui", "nick.os"⟩⟩
        ⟨false, ⟨"our.os", ⟨"timer", "distro", "sys"⟩⟩, .other, none,
         some (.u64val 7)⟩
        "images" ⟨true, none⟩
        ⟨some ⟨42, 3⟩, none, none, OnChainDaoState.default⟩
      = (.ok, ⟨some ⟨42, 3⟩, none, none, OnChainDaoState.default⟩, []))
    ∧ (handle_message ⟨"our.os", ⟨"client", "comfyui", "nick.os"⟩⟩
        ⟨false, ⟨"our.os", ⟨"timer", "distro", "sys"⟩⟩, .other, none,
         some (.u64val 42)⟩
        "images" ⟨true, none⟩
        ⟨some ⟨42, 3⟩, none, none, OnChainDaoState.default⟩
      = (.err (.jobTimedOut 42), ⟨none, none, none, OnChainDaoState.default⟩,
         [.saveState])) := by
  have h := timer_timeout_matching_only
    ⟨"our.os", ⟨"client", "comfyui", "nick.os"⟩⟩
    ⟨"our.os", ⟨"timer", "distro", "sys"⟩⟩ none "images" ⟨true, none⟩
    (by decide)
  exact ⟨h.1 none none OnChainDaoState.default none,
    h.2.1 ⟨42, 3⟩ none none OnChainDaoState.default 7 (by decide),
    h.2.2 ⟨42, 3⟩ none none OnChainDaoState.default⟩

/-- C7: an accepted (blob-carrying) non-final update on a tracked
session advances `next_image_number` by exactly 1 (as a `u32`), which
is a strict increase whenever the increment does not wrap the `u32`
range; an accepted final update clears `current_job` (terminating the
session, so the counter is never observable incremented past it). -/
theorem next_image_number_monotone_final_clears
    (our src : Address) (dir : String) (j : Nat) (sig : RustResult Nat String)
    (b : Blob) (cj : CurrentJob) (rp : Option ProcessId) (sq : Option Address)
    (ch : OnChainDaoState) :
    ((handle_public_request our
        ⟨true, src, .publicReq (.jobUpdate j false sig), some b, none⟩ dir
        ⟨some cj, rp, sq, ch⟩).2.1.current_job
      = some ⟨cj.job_id, (cj.next_image_number + 1) % u32Mod⟩)
    ∧ (cj.next_image_number + 1 < u32Mod →
        cj.next_image_number < (cj.next_image_number + 1) % u32Mod)
    ∧ ((handle_public_request our
        ⟨true, src, .publicReq (.jobUpdate j true sig), some b, none⟩ dir
        ⟨some cj, rp, sq, ch⟩).2.1.current_job = none) := by
  refine ⟨?_, ?_, ?_⟩
  · simp [handle_public_request, decodePublicRequest, jobUpdateTracked]
  · intro hlt
    rw [Nat.mod_eq_of_lt hlt]
    omega
  · simp [handle_public_request, decodePublicRequest, jobUpdateTracked]

/-- Witness for C7 at a concrete session with counter 3. -/
theorem next_image_number_monotone_final_clears_witness :
    ((handle_public_request ⟨"our.os", ⟨"client", "comfyui", "nick.os"⟩⟩
        ⟨true, ⟨"peer.os", ⟨"router", "comfyui", "nick.os"⟩⟩,
         .publicReq (.jobUpdate 42 false (.ok 0)), some (.bytes []), none⟩
        "images"
        ⟨some ⟨42, 3⟩, none, none, OnChainDaoState.default⟩).2.1.current_job
      = some ⟨42, (3 + 1) % u32Mod⟩)
    ∧ (3 < (3 + 1) % u32Mod)
    ∧ ((handle_public_request ⟨"our.os", ⟨"client", "comfyui", "nick.os"⟩⟩
        ⟨true, ⟨"peer.os", ⟨"router", "comfyui", "nick.os"⟩⟩,
         .publicReq (.jobUpdate 42 true (.ok 0)), some (.bytes []), none⟩
        "images"
        ⟨some ⟨42, 3⟩, none, none, OnChainDaoState.default⟩).2.1.current_job
      = none) := by
  have h := next_image_number_monotone_final_clears
    ⟨"our.os", ⟨"client", "comfyui", "nick.os"⟩⟩
    ⟨"peer.os", ⟨"router", "comfyui", "nick.os"⟩⟩ "images" 42 (.ok 0)
    (.bytes []) ⟨42, 3⟩ none none OnChainDaoState.default
  exact ⟨h.1, h.2.1 (by decide), h.2.2⟩

/-- C2: a session starting at counter 0 that receives `n` accepted
non-final updates followed by a final update writes artifacts at
`dir/jobId-0.jpg`, `dir/jobId-1.jpg`, ..., `dir/jobId-(n-1).jpg` in
receipt order, then `dir/jobId-final.jpg`, and the final update leaves
`current_job = none` (the bound `n < 2^32` keeps the `u32` counter from
wrapping). -/
theorem streamed_updates_sequential_paths
    (our src : Address) (dir : String) (j n : Nat) (b : Blob)
    (rp : Option ProcessId) (sq : Option Address) (ch : OnChainDaoState)
    (hn : n < u32Mod) :
    (processUpdates our src dir j (List.replicate n (false, b) ++ [(true, b)])
        ⟨some ⟨j, 0⟩, rp, sq, ch⟩).1.current_job = none
    ∧ writtenPaths (processUpdates our src dir j
        (List.replicate n (false, b) ++ [(true, b)])
        ⟨some ⟨j, 0⟩, rp, sq, ch⟩).2
      = (List.range n).map (fun i => imgPath dir j (toString i))
        ++ [imgPath dir j "final"] := by
  have hrep := processUpdates_replicate_nonfinal our src dir j b n 0
    ⟨some ⟨j, 0⟩, rp, sq, ch⟩ rfl (by omega)
  have hmid : (processUpdates our src dir j (List.replicate n (false, b))
      ⟨some ⟨j, 0⟩, rp, sq, ch⟩).1 = ⟨some ⟨j, n⟩, rp, sq, ch⟩ := by
    rw [hrep.1]
    have h0n : 0 + n = n := by omega
    rw [h0n]
  have hfin : handle_public_request our (mkUpdateMsg src j true b) dir
      (⟨some ⟨j, n⟩, rp, sq, ch⟩ : State)
      = (.ok, ⟨none, rp, sq, ch⟩,
         [.saveState, .writeFile (imgPath dir j "final") b]) := by
    rw [handle_update_tracked_final our src dir j b ⟨j, n⟩ _ rfl]
  rw [processUpdates_append, hmid]
  refine ⟨?_, ?_⟩
  · simp only [processUpdates, hfin]
  · rw [writtenPaths_append, hrep.2]
    simp only [processUpdates, hfin, writtenPaths_cons_save,
      writtenPaths_cons_write, writtenPaths_nil, writtenPaths_append,
      List.append_nil]
    have hmap : (List.range n).map (fun i => imgPath dir j (toString (0 + i)))
        = (List.range n).map (fun i => imgPath dir j (toString i)) := by
      apply List.map_congr_left
      intro i _
      have h0i : 0 + i = i := by omega
      rw [h0i]
    rw [hmap]

/-- Witness for C2 at a concrete run of two non-final updates and a
final one for job 42. -/
theorem streamed_updates_sequential_paths_witness :
    (processUpdates ⟨"our.os", ⟨"client", "comfyui", "nick.os"⟩⟩
        ⟨"peer.os", ⟨"router", "comfyui", "nick.os"⟩⟩ "d" 42
        (List.replicate 2 (false, Blob.bytes []) ++ [(true, Blob.bytes [])])
        ⟨some ⟨42, 0⟩, none, none, OnChainDaoState.default⟩).1.current_job
      = none
    ∧ writtenPaths (processUpdates ⟨"our.os", ⟨"client", "comfyui", "nick.os"⟩⟩
        ⟨"peer.os", ⟨"router", "comfyui", "nick.os"⟩⟩ "d" 42
        (List.replicate 2 (false, Blob.bytes []) ++ [(true, Blob.bytes [])])
        ⟨some ⟨42, 0⟩, none, none, OnChainDaoState.default⟩).2
      = (List.range 2).map (fun i => imgPath "d" 42 (toString i))
        ++ [imgPath "d" 42 "final"] :=
  streamed_updates_sequential_paths
    ⟨"our.os", ⟨"client", "comfyui", "nick.os"⟩⟩
    ⟨"peer.os", ⟨"router", "comfyui", "nick.os"⟩⟩ "d" 42 2 (.bytes [])
    none none OnChainDaoState.default (by decide)

/-- C9 counterexample: the claim says every admin operation sends an
explicit success/failure response even when it raises an error, but a
`SetRouterProcess` whose argument fails to parse returns the parse
error with no response sent (the effect list is empty). -/
theorem admin_parse_failure_sends_no_response_cex :
    handle_admin_request ⟨"our.os", ⟨"client", "comfyui", "nick.os"⟩⟩
        ⟨true, ⟨"our.os", ⟨"client", "comfyui", "nick.os"⟩⟩,
         .adminReq (.setRouterProcess "not-a-process-id"), none, none⟩
        ⟨true, none⟩ State.default
      = (.err .parseFailed, State.default, []) := by
  decide

/-- C9 amended: each admin operation sends its explicit response on the
success path, and `GetRollupState` with no sequencer set sends an
explicit failure response before erroring; but an argument parse
failure, and a chain-sync failure inside `SetRollupSequencer` or
`GetRollupState`, return the error without sending any response. -/
theorem admin_response_discipline_amended :
    (∀ (our : Address) (blb : Option Blob) (ctx : Option CtxBytes)
        (env : SyncEnv) (st : State) (pid : String) (p : ProcessId),
      parseProcessId pid = some p →
      handle_admin_request our
          ⟨true, our, .adminReq (.setRouterProcess pid), blb, ctx⟩ env st
        = (.ok, { st with router_process := some p },
           [.saveState, .sendResponse (.setRouterProcess none)]))
    ∧ (∀ (our : Address) (blb : Option Blob) (ctx : Option CtxBytes)
        (env : SyncEnv) (st : State) (pid : String),
      parseProcessId pid = none →
      handle_admin_request our
          ⟨true, our, .adminReq (.setRouterProcess pid), blb, ctx⟩ env st
        = (.err .parseFailed, st, []))
    ∧ (∀ (our : Address) (blb : Option Blob) (ctx : Option CtxBytes)
        (env : SyncEnv) (cj : Option CurrentJob) (rp : Option ProcessId)
        (ch : OnChainDaoState),
      handle_admin_request our
          ⟨true, our, .adminReq .getRollupState, blb, ctx⟩ env
          ⟨cj, rp, none, ch⟩
        = (.err .noSequencerSet, ⟨cj, rp, none, ch⟩,
           [.sendResponse (.getRollupState (some "no rollup sequencer set"))]))
    ∧ (∀ (our : Address) (blb blb2 : Option Blob) (ctx : Option CtxBytes)
        (cj : Option CurrentJob) (rp : Option ProcessId) (a : Address)
        (ch : OnChainDaoState),
      handle_admin_request our
          ⟨true, our, .adminReq .getRollupState, blb, ctx⟩ ⟨false, blb2⟩
          ⟨cj, rp, some a, ch⟩
        = (.err .fetchTransport, ⟨cj, rp, some a, ch⟩,
           [.sendAwait a 5 (.read .all)]))
    ∧ (∀ (our : Address) (blb blb2 : Option Blob) (ctx : Option CtxBytes)
        (st : State) (addr : String) (a : Address),
      parseAddress addr = some a →
      handle_admin_request our
          ⟨true, our, .adminReq (.setRollupSequencer addr), blb, ctx⟩
          ⟨false, blb2⟩ st
        = (.err .fetchTransport, { st with rollup_sequencer := some a },
           [.saveState, .sendAwait a 5 (.read .all)]))
    ∧ (∀ (our : Address) (blb : Option Blob) (ctx : Option CtxBytes)
        (st : State) (addr : String) (a : Address) (dao : OnChainDaoState),
      parseAddress addr = some a →
      handle_admin_request our
          ⟨true, our, .adminReq (.setRollupSequencer addr), blb, ctx⟩
          ⟨true, some (.seqResp (.read (.all dao)))⟩ st
        = (.ok, { st with rollup_sequencer := some a, on_chain_state := dao },
           [.saveState, .sendAwait a 5 (.read .all), .saveState,
            .sendResponse (.setRollupSequencer none)]))
    ∧ (∀ (our : Address) (blb : Option Blob) (ctx : Option CtxBytes)
        (cj : Option CurrentJob) (rp : Option ProcessId) (a : Address)
        (ch : OnChainDaoState) (dao : OnChainDaoState),
      handle_admin_request our
          ⟨true, our, .adminReq .getRollupState, blb, ctx⟩
          ⟨true, some (.seqResp (.read (.all dao)))⟩ ⟨cj, rp, some a, ch⟩
        = (.ok, ⟨cj, rp, some a, dao⟩,
           [.sendAwait a 5 (.read .all), .saveState,
            .sendResponse (.getRollupState none)])) := by
  refine ⟨?_, ?_, ?_, ?_, ?_, ?_, ?_⟩
  · intro our blb ctx env st pid p hp
    simp [handle_admin_request, decodeAdminRequest, hp]
  · intro our blb ctx env st pid hp
    simp [handle_admin_request, decodeAdminRequest, hp]
  · intro our blb ctx env cj rp ch
    simp [handle_admin_request, decodeAdminRequest]
  · intro our blb blb2 ctx cj rp a ch
    simp [handle_admin_request, decodeAdminRequest, await_chain_state]
  · intro our blb blb2 ctx st addr a ha
    simp [handle_admin_request, decodeAdminRequest, ha, await_chain_state]
  · intro our blb ctx st addr a dao ha
    simp [handle_admin_request, decodeAdminRequest, ha, await_chain_state,
      decodeReadAll]
  · intro our blb ctx cj rp a ch dao
    simp [handle_admin_request, decodeAdminRequest, await_chain_state,
      decodeReadAll]

/-- Witness for C9's amended statement at concrete parseable and
unparseable arguments. -/
theorem admin_response_discipline_amended_witness :
    (handle_admin_request ⟨"our.os", ⟨"client", "comfyui", "nick.os"⟩⟩
        ⟨true, ⟨"our.os", ⟨"client", "comfyui", "nick.os"⟩⟩,
         .adminReq (.setRouterProcess "router:comfyui:nick.os"), none, none⟩
        ⟨true, none⟩ State.default
      = (.ok,
         ⟨none, some ⟨"router", "comfyui", "nick.os"⟩, none,
          OnChainDaoState.default⟩,
         [.saveState, .sendResponse (.setRouterProcess none)]))
    ∧ (handle_admin_request ⟨"our.os", ⟨"client", "comfyui", "nick.os"⟩⟩
        ⟨true, ⟨"our.os", ⟨"client", "comfyui", "nick.os"⟩⟩,
         .adminReq (.setRouterProcess ""), none, none⟩
        ⟨true, none⟩ State.default
      = (.err .parseFailed, State.default, []))
    ∧ (handle_admin_request ⟨"our.os", ⟨"client", "comfyui", "nick.os"⟩⟩
        ⟨true, ⟨"our.os", ⟨"client", "comfyui", "nick.os"⟩⟩,
         .adminReq (.setRollupSequencer "seq.os@sequencer:rollup:nick.os"),
         none, none⟩
        ⟨false, none⟩ State.default
      = (.err .fetchTransport,
         ⟨none, none, some ⟨"seq.os", ⟨"sequencer", "rollup", "nick.os"⟩⟩,
          OnChainDaoState.default⟩,
         [.saveState,
          .sendAwait ⟨"seq.os", ⟨"sequencer", "rollup", "nick.os"⟩⟩ 5
            (.read .all)]))
    ∧ (handle_admin_request ⟨"our.os", ⟨"client", "comfyui", "nick.os"⟩⟩
        ⟨true, ⟨"our.os", ⟨"client", "comfyui", "nick.os"⟩⟩,
         .adminReq (.setRollupSequencer "seq.os@sequencer:rollup:nick.os"),
         none, none⟩
        ⟨true, some (.seqResp (.read (.all ⟨["r.os"], [], [], 1, 2, 3, 4⟩)))⟩
        State.default
      = (.ok,
         ⟨none, none, some ⟨"seq.os", ⟨"sequencer", "rollup", "nick.os"⟩⟩,
          ⟨["r.os"], [], [], 1, 2, 3, 4⟩⟩,
         [.saveState,
          .sendAwait ⟨"seq.os", ⟨"sequencer", "rollup", "nick.os"⟩⟩ 5
            (.read .all), .saveState,
          .sendResponse (.setRollupSequencer none)])) := by
  have h := admin_response_discipline_amended
  exact ⟨h.1 _ none none ⟨true, none⟩ State.default "router:comfyui:nick.os"
      ⟨"router", "comfyui", "nick.os"⟩ rfl,
    h.2.1 _ none none ⟨true, none⟩ State.default "" rfl,
    h.2.2.2.2.1 _ none none none State.default
      "seq.os@sequencer:rollup:nick.os"
      ⟨"seq.os", ⟨"sequencer", "rollup", "nick.os"⟩⟩ rfl,
    h.2.2.2.2.2.1 _ none none State.default "seq.os@sequencer:rollup:nick.os"
      ⟨"seq.os", ⟨"sequencer", "rollup", "nick.os"⟩⟩
      ⟨["r.os"], [], [], 1, 2, 3, 4⟩ rfl⟩

end ComfyClient
